import Mathlib

/-!
Verification development for the quanta_cogno repository.

The development shallowly embeds the parts of the C++ sources that the
checked properties are about:

* `json_logic.h` / `json_logic.cpp`: the `JsonValue` tagged union and its
  `serialize` method.  The C++ class stores every payload field next to a
  type tag; all code in the repository builds values through the `make*`
  factories and direct field assignment, keeping the payload consistent
  with the tag, so the embedding is an inductive type whose accessors
  return the C++ default (empty string / empty map / empty vector) on the
  constructors that do not carry the corresponding payload.  The
  `object_value` field is a `std::map<std::string, JsonValue>`, embedded
  as an association list kept sorted by key: `mapInsert` is
  `operator[]`-assignment (insert at the ordered position, overwrite on an
  equal key) and `mapFind` is `find`.
* `api_handler.cpp`: `process_api_request`, `create_error_response`,
  `create_success_response` and the `BROAD_SEARCH_ENDPOINTS` set.
* `src/flexible_json_logic.cpp`: `FlexibleJsonValue::resolveTemplate`
  (embedded as a fuel-indexed loop, one fuel unit per iteration of the
  C++ `while (std::regex_search ...)` loop, so that `none` means the loop
  has not finished within the given fuel, and a result that is `none` for
  every fuel is a non-terminating run) and
  `FlexibleJsonValue::evaluateCondition`.

The process environment read by `std::getenv` is passed explicitly as an
association list, as is the `std::map<std::string, std::string>` context.
-/

/-- Type tags of the C++ `JsonValue` class (`enum Type` in json_logic.h). -/
inductive JType where
  | STRING
  | NUMBER
  | OBJECT
  | ARRAY
  | BOOL
  | NIL
deriving DecidableEq, Repr

/-- The `JsonValue` tagged union of json_logic.h.  The C++ `number_value`
is a `double`; the modelled code only ever stores the integral literal
`400` in it and never computes with it, so the embedding uses `Int`. -/
inductive JsonValue where
  | str (s : String)
  | num (n : Int)
  | bool (b : Bool)
  | nil
  | obj (fields : List (String × JsonValue))
  | arr (items : List JsonValue)

/-- The `type` tag of a value. -/
def jtype : JsonValue → JType
  | .str _ => .STRING
  | .num _ => .NUMBER
  | .bool _ => .BOOL
  | .nil => .NIL
  | .obj _ => .OBJECT
  | .arr _ => .ARRAY

/-- `string_value`: the string payload (default-constructed, i.e. empty,
on every other constructor). -/
def stringValue : JsonValue → String
  | .str s => s
  | _ => ""

/-- `array_value`: the vector payload (empty on every other constructor). -/
def arrayValue : JsonValue → List JsonValue
  | .arr a => a
  | _ => []

/-- `object_value`: the map payload (empty on every other constructor). -/
def objectValue : JsonValue → List (String × JsonValue)
  | .obj f => f
  | _ => []

/-- Lexicographic comparison of character lists by code point, the order
`std::less<std::string>` induces on the (ASCII) keys the modelled code
uses. -/
def strLtb : List Char → List Char → Bool
  | [], [] => false
  | [], _ :: _ => true
  | _ :: _, [] => false
  | a :: as, b :: bs =>
    if a.toNat < b.toNat then true
    else if b.toNat < a.toNat then false
    else strLtb as bs

/-- The `std::map` key order on strings. -/
def keyLt (a b : String) : Bool := strLtb a.toList b.toList

/-- `std::map::operator[]` followed by assignment: insert the key at its
ordered position (std::less, i.e. lexicographic order on strings),
overwriting the value when the key is already present. -/
def mapInsert : List (String × JsonValue) → String → JsonValue → List (String × JsonValue)
  | [], k, v => [(k, v)]
  | (k', v') :: rest, k, v =>
    if keyLt k k' then (k, v) :: (k', v') :: rest
    else if keyLt k' k then (k', v') :: mapInsert rest k v
    else (k', v) :: rest

/-- `std::map::find` (returning `none` for the end iterator). -/
def mapFind : List (String × JsonValue) → String → Option JsonValue
  | [], _ => none
  | (k', v') :: rest, k => if k' = k then some v' else mapFind rest k

/-- The opening-brace character (ASCII 123). -/
def lbrace : Char := Char.ofNat 123

/-- The closing-brace character (ASCII 125). -/
def rbrace : Char := Char.ofNat 125

/-- The escaping loop of `JsonValue::serialize` for the STRING case:
a double quote becomes backslash-quote, a backslash becomes a double
backslash, every other character is copied. -/
def escapeChars : List Char → List Char
  | [] => []
  | c :: rest =>
    (if c = '"' then ['\\', '"']
     else if c = '\\' then ['\\', '\\']
     else [c]) ++ escapeChars rest

/-- Rendering of `number_value` by `os << number_value`.  The source
streams a `double` with default iostream formatting; the modelled code
only ever serializes integral values, which that formatting prints as
plain digit strings. -/
def numberToString (n : Int) : String := toString n

mutual

/-- `JsonValue::serialize` of json_logic.cpp. -/
def serialize : JsonValue → String
  | .str s => "\"" ++ (escapeChars s.toList).asString ++ "\""
  | .num n => numberToString n
  | .bool b => if b then "true" else "false"
  | .nil => "null"
  | .obj fields => String.singleton lbrace ++ serializeFields fields ++ String.singleton rbrace
  | .arr items => "[" ++ serializeItems items ++ "]"

/-- The OBJECT loop of `serialize`: entries in map order, comma-separated
via the `first` flag; keys are streamed unescaped. -/
def serializeFields : List (String × JsonValue) → String
  | [] => ""
  | [(k, v)] => "\"" ++ k ++ "\":" ++ serialize v
  | (k, v) :: rest => "\"" ++ k ++ "\":" ++ serialize v ++ "," ++ serializeFields rest

/-- The ARRAY loop of `serialize`. -/
def serializeItems : List JsonValue → String
  | [] => ""
  | [v] => serialize v
  | v :: rest => serialize v ++ "," ++ serializeItems rest

end

/-- The `BROAD_SEARCH_ENDPOINTS` set of api_handler.cpp (a `std::set`;
only membership is ever used). -/
def BROAD_SEARCH_ENDPOINTS : List String :=
  ["getResearchAssociations", "getDrugGeneInteractions", "getPolygeneticRiskScores"]

/-- `create_error_response` of api_handler.cpp.  The C++ declaration
defaults `error_code` to 400; every call in `process_api_request` uses
that default. -/
def create_error_response (message : String) (error_code : Int) : JsonValue :=
  JsonValue.obj
    (mapInsert (mapInsert [] "error"
        (JsonValue.obj (mapInsert (mapInsert [] "code" (JsonValue.num error_code))
          "message" (JsonValue.str message))))
      "success" (JsonValue.bool false))

/-- `create_success_response` of api_handler.cpp. -/
def create_success_response (message : String) : JsonValue :=
  JsonValue.obj
    (mapInsert (mapInsert [] "success" (JsonValue.bool true))
      "message" (JsonValue.str message))

/-- Body of the parameter loop of `process_api_request`: the conditions
under which one `param` entry sets `has_valid_parameter`. -/
def param_is_valid (v : JsonValue) : Bool :=
  if jtype v != JType.NIL then
    if jtype v == JType.STRING && stringValue v != "" then true
    else if jtype v == JType.ARRAY && !(arrayValue v).isEmpty then true
    else if jtype v != JType.STRING && jtype v != JType.ARRAY then true
    else false
  else false

/-- Error message of the missing-`parameters` branch of
`process_api_request`. -/
def msg_missing_params (endpoint : String) : String :=
  "Missing parameters object for endpoint: " ++ endpoint

/-- Error message of the branch for an empty or non-object `parameters` value. -/
def msg_requires_param (endpoint : String) : String :=
  "Endpoint \x27" ++ endpoint ++ "\x27 requires at least one search parameter to prevent overly broad queries."

/-- Error message of the no-valid-parameter branch. -/
def msg_requires_nonempty_param (endpoint : String) : String :=
  "Endpoint \x27" ++ endpoint ++ "\x27 requires at least one non-empty search parameter to prevent overly broad queries."

/-- Success message of `process_api_request`. -/
def msg_success (endpoint : String) : String :=
  "Request processed successfully for endpoint: " ++ endpoint

/-- `process_api_request` of api_handler.cpp (the two-argument
definition in src/api_handler.cpp).  The early returns of the C++
function become the branches of the conditional; the parameter loop with
`break` is `List.any`. -/
def process_api_request (endpoint : String) (request : JsonValue) : JsonValue :=
  if BROAD_SEARCH_ENDPOINTS.contains endpoint then
    match mapFind (objectValue request) "parameters" with
    | none => create_error_response (msg_missing_params endpoint) 400
    | some parameters =>
      if jtype parameters != JType.OBJECT || (objectValue parameters).isEmpty then
        create_error_response (msg_requires_param endpoint) 400
      else if !((objectValue parameters).any (fun p => param_is_valid p.2)) then
        create_error_response (msg_requires_nonempty_param endpoint) 400
      else
        create_success_response (msg_success endpoint)
  else
    create_success_response (msg_success endpoint)

/-- The spec's meaningfulness rule, stated in its own words: a zero-length
string is not meaningful, a zero-element array is not meaningful, null is
never meaningful, any other non-null value is meaningful. -/
def meaningful : JsonValue → Bool
  | .nil => false
  | .str s => !(s == "")
  | .arr a => !a.isEmpty
  | _ => true

/-- Helper of `findPlaceholder`: keep the scanned character in the
returned position of the leftmost match. -/
def prependChar (c : Char) :
    Option (List Char × List Char × List Char) → Option (List Char × List Char × List Char)
  | some (pre, inner, suf) => some (c :: pre, inner, suf)
  | none => none

/-- Split a character list at its first closing brace: the characters
before it and the characters after it. -/
def splitAtRBrace : List Char → Option (List Char × List Char)
  | [] => none
  | c :: rest =>
    if c = rbrace then some ([], rest)
    else
      match splitAtRBrace rest with
      | some (a, b) => some (c :: a, b)
      | none => none

/-- After a dollar-brace opener, the extent the pattern's inner group can
match: the characters up to the next closing brace, which must be at
least one (the group is one-or-more non-brace characters) and closed. -/
def takeInner (l : List Char) : Option (List Char × List Char) :=
  match splitAtRBrace l with
  | some (inner, suffix) => if inner = [] then none else some (inner, suffix)
  | none => none

/-- The leftmost match of the `std::regex` pattern used by
`resolveTemplate` — a dollar sign, an opening brace, one or more
non-closing-brace characters, a closing brace — returned as the text
before the match, the inner group, and the text after the match.  When a
dollar-brace opener is not completed (inner group empty or never closed)
the scan moves on to the next start position, as the regex engine does. -/
def findPlaceholder : List Char → Option (List Char × List Char × List Char)
  | [] => none
  | c :: rest =>
    if c = '$' then
      match rest with
      | [] => none
      | c2 :: rest2 =>
        if c2 = lbrace then
          match takeInner rest2 with
          | some (inner, suffix) => some ([], inner, suffix)
          | none => prependChar c (findPlaceholder rest)
        else prependChar c (findPlaceholder rest)
    else prependChar c (findPlaceholder rest)

/-- `std::map<std::string, std::string>` lookup (`find` /
`std::getenv`), used for both the context map and the process
environment. -/
def lookupStr : List (String × String) → String → Option String
  | [], _ => none
  | (k, v) :: rest, key => if k = key then some v else lookupStr rest key

/-- The replacement computed by one iteration of the `resolveTemplate`
loop once a colon separator was found in the inner group: the text before
the first colon is the type, the text after it the key; `ENV` reads the
environment (empty string when unset), `CONFIG` reads the context with an
optional default after the first pipe, `INPUT` reads the context (empty
string when absent), and any other type leaves the replacement at its
initial empty string. -/
def resolveStep (env ctx : List (String × String)) (inner : List Char) : List Char :=
  let ty := inner.takeWhile (fun c => c != ':')
  let key := ((inner.dropWhile (fun c => c != ':')).drop 1)
  if ty = "ENV".toList then
    match lookupStr env key.asString with
    | some v => v.toList
    | none => []
  else if ty = "CONFIG".toList then
    let var_name := key.takeWhile (fun c => c != '|')
    let default_val := (key.dropWhile (fun c => c != '|')).drop 1
    match lookupStr ctx var_name.asString with
    | some v => v.toList
    | none => default_val
  else if ty = "INPUT".toList then
    match lookupStr ctx key.asString with
    | some v => v.toList
    | none => []
  else []

/-- The `while (std::regex_search ...)` loop of `resolveTemplate`,
indexed by fuel (one unit per iteration): `none` means the loop did not
finish within the fuel.  When the inner group has no colon the C++ body
changes nothing and the loop re-scans the same string; the embedding
recurses on the unchanged string, so such a run is `none` for every
fuel. -/
def resolveLoop (env ctx : List (String × String)) : Nat → List Char → Option (List Char)
  | 0, _ => none
  | fuel + 1, s =>
    match findPlaceholder s with
    | none => some s
    | some (pre, inner, suf) =>
      if inner.contains ':' then
        resolveLoop env ctx fuel (pre ++ resolveStep env ctx inner ++ suf)
      else
        resolveLoop env ctx fuel s

/-- `FlexibleJsonValue::resolveTemplate` of src/flexible_json_logic.cpp,
with the process environment passed explicitly and the loop indexed by
fuel. -/
def resolveTemplate (env ctx : List (String × String)) (fuel : Nat) (template_str : String) :
    Option String :=
  (resolveLoop env ctx fuel template_str.toList).map List.asString

/-- `FlexibleJsonValue::evaluateCondition` of src/flexible_json_logic.cpp:
the body is an unimplemented stub (`TODO: Implementation`) that returns
`true` for every condition and context. -/
def evaluateCondition (condition : String) (context : List (String × JsonValue)) : Bool :=
  true

/-! Shared lemmas about the response constructors and the validation
predicate. -/

lemma objectValue_error (m : String) (c : Int) :
    objectValue (create_error_response m c) =
      [("error", JsonValue.obj [("code", JsonValue.num c), ("message", JsonValue.str m)]),
       ("success", JsonValue.bool false)] := rfl

lemma objectValue_success (m : String) :
    objectValue (create_success_response m) =
      [("message", JsonValue.str m), ("success", JsonValue.bool true)] := rfl

lemma find_success_of_error (m : String) (c : Int) :
    mapFind (objectValue (create_error_response m c)) "success" = some (JsonValue.bool false) := rfl

lemma find_error_of_error (m : String) (c : Int) :
    mapFind (objectValue (create_error_response m c)) "error" =
      some (JsonValue.obj [("code", JsonValue.num c), ("message", JsonValue.str m)]) := rfl

lemma find_success_of_success (m : String) :
    mapFind (objectValue (create_success_response m)) "success" = some (JsonValue.bool true) := rfl

lemma find_message_of_success (m : String) :
    mapFind (objectValue (create_success_response m)) "message" = some (JsonValue.str m) := rfl

lemma param_is_valid_eq_meaningful (v : JsonValue) : param_is_valid v = meaningful v := by
  cases v <;> simp [param_is_valid, meaningful, jtype, stringValue, arrayValue]
  rename_i s
  by_cases h : s = "" <;> simp [h]

/-- On a broad-search endpoint with a `parameters` object present, the
handler reduces to the two validation checks of its body. -/
lemma process_api_request_broad_obj (endpoint : String) (request : JsonValue)
    (fields : List (String × JsonValue))
    (he : BROAD_SEARCH_ENDPOINTS.contains endpoint = true)
    (hp : mapFind (objectValue request) "parameters" = some (JsonValue.obj fields)) :
    process_api_request endpoint request =
      if fields.isEmpty then create_error_response (msg_requires_param endpoint) 400
      else if !(fields.any fun p => param_is_valid p.2) then
        create_error_response (msg_requires_nonempty_param endpoint) 400
      else create_success_response (msg_success endpoint) := by
  unfold process_api_request
  rw [he, hp]
  simp only [jtype, objectValue, bne_self_eq_false, Bool.false_or, if_pos]

/-- C1: for every broad-search endpoint and every request without a
"parameters" key, `process_api_request` returns the failure response
whose error message contains "Missing parameters object" (and whose
"success" field is `false`, so it never returns success). -/
theorem broad_search_missing_parameters (endpoint : String) (request : JsonValue)
    (he : BROAD_SEARCH_ENDPOINTS.contains endpoint = true)
    (hp : mapFind (objectValue request) "parameters" = none) :
    process_api_request endpoint request = create_error_response (msg_missing_params endpoint) 400 ∧
    (∃ pre post, msg_missing_params endpoint = pre ++ "Missing parameters object" ++ post) ∧
    mapFind (objectValue (process_api_request endpoint request)) "success" =
      some (JsonValue.bool false) := by
  have h1 : process_api_request endpoint request =
      create_error_response (msg_missing_params endpoint) 400 := by
    unfold process_api_request
    rw [he, hp]
    rfl
  refine ⟨h1, ⟨"", " for endpoint: " ++ endpoint, rfl⟩, ?_⟩
  rw [h1]
  exact find_success_of_error _ _

/-- Witness for C1 at the endpoint getResearchAssociations and a request
that is an empty object. -/
theorem broad_search_missing_parameters_w :
    process_api_request "getResearchAssociations" (JsonValue.obj []) =
      create_error_response (msg_missing_params "getResearchAssociations") 400 ∧
    (∃ pre post,
      msg_missing_params "getResearchAssociations" = pre ++ "Missing parameters object" ++ post) ∧
    mapFind (objectValue (process_api_request "getResearchAssociations" (JsonValue.obj [])))
      "success" = some (JsonValue.bool false) :=
  broad_search_missing_parameters "getResearchAssociations" (JsonValue.obj []) rfl rfl

/-- C6: for every endpoint name outside the broad-search set,
`process_api_request` returns the success response for every request,
even one without a "parameters" key. -/
theorem non_broad_search_always_success (endpoint : String) (request : JsonValue)
    (he : BROAD_SEARCH_ENDPOINTS.contains endpoint = false) :
    process_api_request endpoint request = create_success_response (msg_success endpoint) ∧
    mapFind (objectValue (process_api_request endpoint request)) "success" =
      some (JsonValue.bool true) := by
  have h1 : process_api_request endpoint request = create_success_response (msg_success endpoint) := by
    unfold process_api_request
    rw [he]
    rfl
  exact ⟨h1, by rw [h1]; exact find_success_of_success _⟩

/-- Witness for C6 at the endpoint getGene and a request that is an empty
object (so the "parameters" key is absent). -/
theorem non_broad_search_always_success_w :
    process_api_request "getGene" (JsonValue.obj []) =
      create_success_response (msg_success "getGene") ∧
    mapFind (objectValue (process_api_request "getGene" (JsonValue.obj []))) "success" =
      some (JsonValue.bool true) :=
  non_broad_search_always_success "getGene" (JsonValue.obj []) rfl

/-- C9: the claim says a malformed or unresolvable condition evaluates to
false; the `evaluateCondition` in the source is an unimplemented stub
that returns `true` for every condition string and every context,
including malformed ones, contradicting the documented treat-as-false
behaviour. -/
theorem evaluateCondition_always_true (condition : String)
    (context : List (String × JsonValue)) :
    evaluateCondition condition context = true := rfl

lemma str_append_assoc (a b c : String) : (a ++ b) ++ c = a ++ (b ++ c) := by
  obtain ⟨la⟩ := a
  obtain ⟨lb⟩ := b
  obtain ⟨lc⟩ := c
  show String.mk ((la ++ lb) ++ lc) = String.mk (la ++ (lb ++ lc))
  rw [List.append_assoc]

lemma strlen_append (a b : String) : (a ++ b).length = a.length + b.length := by
  obtain ⟨la⟩ := a
  obtain ⟨lb⟩ := b
  show (la ++ lb).length = la.length + lb.length
  exact List.length_append la lb

/-- C2: for every broad-search endpoint, a present `parameters` object
that is empty, or whose values are all non-meaningful (null, empty
string, empty array), is rejected: the response has `success = false`,
the message says at least one (non-empty) search parameter is required,
and the two cases produce distinguishable (unequal) messages. -/
theorem broad_search_empty_params_rejected (endpoint : String) (request : JsonValue)
    (fields : List (String × JsonValue))
    (he : BROAD_SEARCH_ENDPOINTS.contains endpoint = true)
    (hp : mapFind (objectValue request) "parameters" = some (JsonValue.obj fields))
    (hall : ∀ kv ∈ fields, meaningful kv.2 = false) :
    mapFind (objectValue (process_api_request endpoint request)) "success" =
      some (JsonValue.bool false) ∧
    (fields = [] →
      process_api_request endpoint request =
        create_error_response (msg_requires_param endpoint) 400) ∧
    (fields ≠ [] →
      process_api_request endpoint request =
        create_error_response (msg_requires_nonempty_param endpoint) 400) ∧
    (∃ preA postA, msg_requires_param endpoint = preA ++ "requires at least one" ++ postA) ∧
    (∃ preB postB,
      msg_requires_nonempty_param endpoint = preB ++ "requires at least one" ++ postB) ∧
    msg_requires_param endpoint ≠ msg_requires_nonempty_param endpoint := by
  have h0 := process_api_request_broad_obj endpoint request fields he hp
  have hsubA : msg_requires_param endpoint =
      ("Endpoint \x27" ++ endpoint ++ "\x27 ") ++ "requires at least one" ++
        " search parameter to prevent overly broad queries." := by
    rw [msg_requires_param]
    rw [str_append_assoc, str_append_assoc, str_append_assoc]
    rfl
  have hsubB : msg_requires_nonempty_param endpoint =
      ("Endpoint \x27" ++ endpoint ++ "\x27 ") ++ "requires at least one" ++
        " non-empty search parameter to prevent overly broad queries." := by
    rw [msg_requires_nonempty_param]
    rw [str_append_assoc, str_append_assoc, str_append_assoc]
    rfl
  have hdist : msg_requires_param endpoint ≠ msg_requires_nonempty_param endpoint := by
    intro h
    have hl := congrArg String.length h
    rw [msg_requires_param, msg_requires_nonempty_param] at hl
    simp only [strlen_append] at hl
    have hne :
        ("\x27 requires at least one search parameter to prevent overly broad queries." :
          String).length ≠
        ("\x27 requires at least one non-empty search parameter to prevent overly broad queries." :
          String).length := by decide
    omega
  have hresp : process_api_request endpoint request =
      (if fields.isEmpty then create_error_response (msg_requires_param endpoint) 400
       else create_error_response (msg_requires_nonempty_param endpoint) 400) := by
    rw [h0]
    cases fields with
    | nil => rfl
    | cons kv rest =>
      have hany : ((kv :: rest).any fun p => param_is_valid p.2) = false := by
        rw [List.any_eq_false]
        intro x hx
        simp [param_is_valid_eq_meaningful, hall x hx]
      simp [hany]
  refine ⟨?_, ?_, ?_, ⟨_, _, hsubA⟩, ⟨_, _, hsubB⟩, hdist⟩
  · rw [hresp]
    cases fields with
    | nil => exact find_success_of_error _ _
    | cons kv rest => exact find_success_of_error _ _
  · intro hnil
    subst hnil
    rw [hresp]
    rfl
  · intro hne
    rw [hresp]
    cases fields with
    | nil => exact absurd rfl hne
    | cons kv rest => rfl

/-- Witness for C2 at the endpoint getDrugGeneInteractions and a request
whose parameters object maps gene_ids to null. -/
theorem broad_search_empty_params_rejected_w :
    mapFind (objectValue (process_api_request "getDrugGeneInteractions"
      (JsonValue.obj (mapInsert [] "parameters"
        (JsonValue.obj (mapInsert [] "gene_ids" JsonValue.nil)))))) "success" =
      some (JsonValue.bool false) ∧
    ([("gene_ids", JsonValue.nil)] = ([] : List (String × JsonValue)) →
      process_api_request "getDrugGeneInteractions"
        (JsonValue.obj (mapInsert [] "parameters"
          (JsonValue.obj (mapInsert [] "gene_ids" JsonValue.nil)))) =
        create_error_response (msg_requires_param "getDrugGeneInteractions") 400) ∧
    ([("gene_ids", JsonValue.nil)] ≠ ([] : List (String × JsonValue)) →
      process_api_request "getDrugGeneInteractions"
        (JsonValue.obj (mapInsert [] "parameters"
          (JsonValue.obj (mapInsert [] "gene_ids" JsonValue.nil)))) =
        create_error_response (msg_requires_nonempty_param "getDrugGeneInteractions") 400) ∧
    (∃ preA postA,
      msg_requires_param "getDrugGeneInteractions" = preA ++ "requires at least one" ++ postA) ∧
    (∃ preB postB,
      msg_requires_nonempty_param "getDrugGeneInteractions" =
        preB ++ "requires at least one" ++ postB) ∧
    msg_requires_param "getDrugGeneInteractions" ≠
      msg_requires_nonempty_param "getDrugGeneInteractions" :=
  broad_search_empty_params_rejected "getDrugGeneInteractions"
    (JsonValue.obj (mapInsert [] "parameters"
      (JsonValue.obj (mapInsert [] "gene_ids" JsonValue.nil))))
    [("gene_ids", JsonValue.nil)] rfl rfl
    (by intro kv hkv; rw [List.mem_singleton] at hkv; subst hkv; rfl)

/-- C3: for every broad-search endpoint, a `parameters` object containing
at least one meaningful entry (non-empty string, non-empty array, or any
other non-null value) is accepted with a success response. -/
theorem broad_search_meaningful_param_accepted (endpoint : String) (request : JsonValue)
    (fields : List (String × JsonValue)) (kv : String × JsonValue)
    (he : BROAD_SEARCH_ENDPOINTS.contains endpoint = true)
    (hp : mapFind (objectValue request) "parameters" = some (JsonValue.obj fields))
    (hkv : kv ∈ fields) (hm : meaningful kv.2 = true) :
    process_api_request endpoint request = create_success_response (msg_success endpoint) ∧
    mapFind (objectValue (process_api_request endpoint request)) "success" =
      some (JsonValue.bool true) := by
  have hne : fields.isEmpty = false := by
    cases fields with
    | nil => cases hkv
    | cons a l => rfl
  have hany : (fields.any fun p => param_is_valid p.2) = true :=
    List.any_eq_true.mpr ⟨kv, hkv, by rw [param_is_valid_eq_meaningful]; exact hm⟩
  have h1 : process_api_request endpoint request = create_success_response (msg_success endpoint) := by
    rw [process_api_request_broad_obj endpoint request fields he hp, hne, hany]
    rfl
  exact ⟨h1, by rw [h1]; exact find_success_of_success _⟩

/-- Witness for C3 at the endpoint getResearchAssociations and a
parameters object mapping gene_ids to the non-empty string "COMT". -/
theorem broad_search_meaningful_param_accepted_w :
    process_api_request "getResearchAssociations"
      (JsonValue.obj (mapInsert [] "parameters"
        (JsonValue.obj (mapInsert [] "gene_ids" (JsonValue.str "COMT"))))) =
      create_success_response (msg_success "getResearchAssociations") ∧
    mapFind (objectValue (process_api_request "getResearchAssociations"
      (JsonValue.obj (mapInsert [] "parameters"
        (JsonValue.obj (mapInsert [] "gene_ids" (JsonValue.str "COMT"))))))) "success" =
      some (JsonValue.bool true) :=
  broad_search_meaningful_param_accepted "getResearchAssociations"
    (JsonValue.obj (mapInsert [] "parameters"
      (JsonValue.obj (mapInsert [] "gene_ids" (JsonValue.str "COMT")))))
    [("gene_ids", JsonValue.str "COMT")] ("gene_ids", JsonValue.str "COMT")
    rfl rfl (List.mem_singleton.mpr rfl) rfl

/-- C5 counterexample: the request with name getResearchAssociations and
parameters mapping gene_ids to an empty array is NOT accepted by
`process_api_request`: the response is the strict-variant error response,
its "success" field is `false`, and its serialization is not the claimed
success document. -/
theorem empty_array_request_rejected_cx :
    process_api_request "getResearchAssociations"
      (JsonValue.obj (mapInsert (mapInsert [] "name" (JsonValue.str "getResearchAssociations"))
        "parameters" (JsonValue.obj (mapInsert [] "gene_ids" (JsonValue.arr []))))) =
      create_error_response (msg_requires_nonempty_param "getResearchAssociations") 400 ∧
    mapFind (objectValue (process_api_request "getResearchAssociations"
      (JsonValue.obj (mapInsert (mapInsert [] "name" (JsonValue.str "getResearchAssociations"))
        "parameters" (JsonValue.obj (mapInsert [] "gene_ids" (JsonValue.arr []))))))) "success" =
      some (JsonValue.bool false) ∧
    serialize (process_api_request "getResearchAssociations"
      (JsonValue.obj (mapInsert (mapInsert [] "name" (JsonValue.str "getResearchAssociations"))
        "parameters" (JsonValue.obj (mapInsert [] "gene_ids" (JsonValue.arr [])))))) ≠
      "\x7b\"success\":true\x7d" :=
  ⟨rfl, rfl, by decide⟩

/-- C5 amended: a getResearchAssociations request whose parameters object
has the key gene_ids with an empty array value is rejected (the code
implements the strict policy): the response is the error response whose
message requires at least one non-empty search parameter, and whose
"error" object carries code 400. -/
theorem empty_array_request_rejected :
    process_api_request "getResearchAssociations"
      (JsonValue.obj (mapInsert (mapInsert [] "name" (JsonValue.str "getResearchAssociations"))
        "parameters" (JsonValue.obj (mapInsert [] "gene_ids" (JsonValue.arr []))))) =
      create_error_response (msg_requires_nonempty_param "getResearchAssociations") 400 ∧
    (∃ pre post, msg_requires_nonempty_param "getResearchAssociations" =
      pre ++ "requires at least one non-empty search parameter" ++ post) ∧
    mapFind (objectValue (process_api_request "getResearchAssociations"
      (JsonValue.obj (mapInsert (mapInsert [] "name" (JsonValue.str "getResearchAssociations"))
        "parameters" (JsonValue.obj (mapInsert [] "gene_ids" (JsonValue.arr []))))))) "error" =
      some (JsonValue.obj [("code", JsonValue.num 400),
        ("message", JsonValue.str (msg_requires_nonempty_param "getResearchAssociations"))]) :=
  ⟨rfl,
   ⟨"Endpoint \x27getResearchAssociations\x27 ", " to prevent overly broad queries.", rfl⟩,
   rfl⟩

/-- C10: every response of `process_api_request` is an object with a
boolean "success" field; a success response has `success = true` and a
string "message", a failure response has `success = false` and an
"error" object carrying numeric code 400 and a string "message". -/
theorem process_api_request_response_shape (endpoint : String) (request : JsonValue) :
    jtype (process_api_request endpoint request) = JType.OBJECT ∧
    ((mapFind (objectValue (process_api_request endpoint request)) "success" =
        some (JsonValue.bool true) ∧
      ∃ m, mapFind (objectValue (process_api_request endpoint request)) "message" =
        some (JsonValue.str m)) ∨
     (mapFind (objectValue (process_api_request endpoint request)) "success" =
        some (JsonValue.bool false) ∧
      ∃ m, mapFind (objectValue (process_api_request endpoint request)) "error" =
        some (JsonValue.obj [("code", JsonValue.num 400), ("message", JsonValue.str m)]))) := by
  unfold process_api_request
  by_cases h1 : BROAD_SEARCH_ENDPOINTS.contains endpoint
  · rw [if_pos h1]
    cases hp : mapFind (objectValue request) "parameters" with
    | none =>
      exact ⟨rfl, Or.inr ⟨find_success_of_error _ _, msg_missing_params endpoint,
        find_error_of_error _ _⟩⟩
    | some p =>
      dsimp only
      by_cases h2 : (jtype p != JType.OBJECT || (objectValue p).isEmpty) = true
      · rw [if_pos h2]
        exact ⟨rfl, Or.inr ⟨find_success_of_error _ _, msg_requires_param endpoint,
          find_error_of_error _ _⟩⟩
      · rw [if_neg h2]
        by_cases h3 : (!(objectValue p).any fun pa => param_is_valid pa.2) = true
        · rw [if_pos h3]
          exact ⟨rfl, Or.inr ⟨find_success_of_error _ _, msg_requires_nonempty_param endpoint,
            find_error_of_error _ _⟩⟩
        · rw [if_neg h3]
          exact ⟨rfl, Or.inl ⟨find_success_of_success _, msg_success endpoint,
            find_message_of_success _⟩⟩
  · rw [if_neg h1]
    exact ⟨rfl, Or.inl ⟨find_success_of_success _, msg_success endpoint,
      find_message_of_success _⟩⟩

/-- One unfolding of the `while (std::regex_search ...)` loop. -/
lemma resolveLoop_succ (env ctx : List (String × String)) (n : Nat) (s : List Char) :
    resolveLoop env ctx (n + 1) s =
      match findPlaceholder s with
      | none => some s
      | some (pre, inner, suf) =>
        if inner.contains ':' then
          resolveLoop env ctx n (pre ++ resolveStep env ctx inner ++ suf)
        else resolveLoop env ctx n s := rfl

/-- The replacement computed for the inner group "ENV:X" is the
environment value of X (empty when unset). -/
lemma resolveStep_ENV_X (env ctx : List (String × String)) :
    resolveStep env ctx ("ENV:X".toList) =
      (match lookupStr env "X" with
       | some v => v.toList
       | none => []) := rfl

/-- C7: the defining equalities of template resolution.  Resolving the
template with the single placeholder ENV:X yields the value of the
environment variable X (when that value itself contains no placeholder),
or the empty string when X is unset; resolving INPUT:user_id against a
context mapping user_id to "12345" yields "12345"; resolving
CONFIG:limit with default 50 against an empty context yields "50"; and a
template without any placeholder is returned unchanged.  The fuel
`f + 2` states that the loop terminates after the single substitution. -/
theorem resolveTemplate_spec_equalities (env ctx : List (String × String)) (f : Nat) :
    (∀ v, lookupStr env "X" = some v → findPlaceholder v.toList = none →
      resolveTemplate env ctx (f + 2) "$\x7bENV:X\x7d" = some v) ∧
    (lookupStr env "X" = none →
      resolveTemplate env ctx (f + 2) "$\x7bENV:X\x7d" = some "") ∧
    resolveTemplate env [("user_id", "12345")] (f + 2) "$\x7bINPUT:user_id\x7d" =
      some "12345" ∧
    resolveTemplate env [] (f + 2) "$\x7bCONFIG:limit|50\x7d" = some "50" ∧
    (∀ t : String, findPlaceholder t.toList = none →
      resolveTemplate env ctx (f + 1) t = some t) := by
  have h2 : f + 2 = (f + 1) + 1 := rfl
  refine ⟨?_, ?_, ?_, ?_, ?_⟩
  · intro v hv hnp
    unfold resolveTemplate
    rw [h2, resolveLoop_succ]
    show (resolveLoop env ctx (f + 1)
      (resolveStep env ctx ("ENV:X".toList) ++ [])).map List.asString = some v
    simp only [resolveStep_ENV_X, hv, List.append_nil]
    rw [resolveLoop_succ, hnp]
    rfl
  · intro hv
    unfold resolveTemplate
    rw [h2, resolveLoop_succ]
    show (resolveLoop env ctx (f + 1)
      (resolveStep env ctx ("ENV:X".toList) ++ [])).map List.asString = some ""
    simp only [resolveStep_ENV_X, hv, List.append_nil]
    rfl
  · rfl
  · rfl
  · intro t ht
    unfold resolveTemplate
    rw [resolveLoop_succ, ht]
    rfl

/-- Witness for C7 at the environment mapping X to "hello" and small
concrete contexts. -/
theorem resolveTemplate_spec_equalities_w :
    resolveTemplate [("X", "hello")] [] 2 "$\x7bENV:X\x7d" = some "hello" ∧
    resolveTemplate [] [] 2 "$\x7bENV:X\x7d" = some "" ∧
    resolveTemplate [] [("user_id", "12345")] 2 "$\x7bINPUT:user_id\x7d" = some "12345" ∧
    resolveTemplate [] [] 1 "this is a plain string" = some "this is a plain string" :=
  ⟨(resolveTemplate_spec_equalities [("X", "hello")] [] 0).1 "hello" rfl rfl,
   (resolveTemplate_spec_equalities [] [] 0).2.1 rfl,
   (resolveTemplate_spec_equalities [] [("user_id", "12345")] 0).2.2.1,
   (resolveTemplate_spec_equalities [] [] 0).2.2.2.2 "this is a plain string" rfl⟩

/-- C4: the claim says `resolveTemplate` always terminates and leaves a
malformed (colon-free) placeholder untouched; on the template consisting
of such a placeholder the C++ loop body performs no replacement, the
regex search finds the same placeholder again, and the loop never
terminates: the fuel-indexed embedding of the loop returns `none` (loop
still running) for EVERY fuel, for every environment and context. -/
theorem resolveTemplate_no_colon_nonterminating (env ctx : List (String × String)) (fuel : Nat) :
    resolveTemplate env ctx fuel "$\x7bx\x7d" = none := by
  have hloop : ∀ n : Nat, resolveLoop env ctx n ("$\x7bx\x7d".toList) = none := by
    intro n
    induction n with
    | zero => rfl
    | succ m ih =>
      rw [resolveLoop_succ]
      show resolveLoop env ctx m ("$\x7bx\x7d".toList) = none
      exact ih
  unfold resolveTemplate
  rw [hloop fuel]
  rfl

/-! Order facts about the map key comparison, used to show that
serialization emits object keys in sorted order. -/

lemma strLtb_cons_iff (a b : Char) (as bs : List Char) :
    strLtb (a :: as) (b :: bs) = true ↔
      (a.toNat < b.toNat ∨ (a.toNat = b.toNat ∧ strLtb as bs = true)) := by
  simp only [strLtb]
  by_cases h1 : a.toNat < b.toNat
  · simp [h1]
  · by_cases h2 : b.toNat < a.toNat
    · simp [h1, h2]
      omega
    · have h3 : a.toNat = b.toNat := by omega
      simp [h1, h2, h3]

lemma strLtb_trans : ∀ (as bs cs : List Char),
    strLtb as bs = true → strLtb bs cs = true → strLtb as cs = true
  | [], [], _ => by intro h1 _; exact absurd h1 (by simp [strLtb])
  | [], _ :: _, [] => by intro _ h2; exact absurd h2 (by simp [strLtb])
  | [], _ :: _, _ :: _ => by intro _ _; simp [strLtb]
  | _ :: _, [], _ => by intro h1 _; exact absurd h1 (by simp [strLtb])
  | _ :: _, _ :: _, [] => by intro _ h2; exact absurd h2 (by simp [strLtb])
  | a :: as, b :: bs, c :: cs => by
    intro h1 h2
    rw [strLtb_cons_iff] at h1 h2 ⊢
    rcases h1 with h1 | ⟨h1e, h1t⟩
    · rcases h2 with h2 | ⟨h2e, _⟩
      · exact Or.inl (by omega)
      · exact Or.inl (by omega)
    · rcases h2 with h2 | ⟨h2e, h2t⟩
      · exact Or.inl (by omega)
      · exact Or.inr ⟨by omega, strLtb_trans as bs cs h1t h2t⟩

lemma keyLt_trans (a b c : String) :
    keyLt a b = true → keyLt b c = true → keyLt a c = true :=
  strLtb_trans a.toList b.toList c.toList

/-- An entry of `mapInsert l k v` has key `k` or a key already in `l`. -/
lemma mem_map_fst_mapInsert : ∀ (l : List (String × JsonValue)) (k : String) (v : JsonValue)
    (y : String), y ∈ (mapInsert l k v).map Prod.fst → y = k ∨ y ∈ l.map Prod.fst
  | [], k, v, y => by
    intro hy
    simp [mapInsert] at hy
    exact Or.inl hy
  | (k', v') :: tl, k, v, y => by
    intro hy
    unfold mapInsert at hy
    by_cases h1 : keyLt k k' = true
    · rw [if_pos h1] at hy
      simp only [List.map_cons, List.mem_cons] at hy ⊢
      tauto
    · rw [if_neg h1] at hy
      by_cases h2 : keyLt k' k = true
      · rw [if_pos h2] at hy
        simp only [List.map_cons, List.mem_cons] at hy
        rcases hy with h | h
        · right
          simp [h]
        · rcases mem_map_fst_mapInsert tl k v y h with h' | h'
          · exact Or.inl h'
          · right
            simp [h']
      · rw [if_neg h2] at hy
        simp only [List.map_cons, List.mem_cons] at hy ⊢
        tauto

/-- `mapInsert` preserves strict sortedness of the keys. -/
lemma pairwise_keyLt_mapInsert : ∀ (l : List (String × JsonValue)) (k : String) (v : JsonValue),
    l.Pairwise (fun a b => keyLt a.1 b.1 = true) →
    (mapInsert l k v).Pairwise (fun a b => keyLt a.1 b.1 = true)
  | [], k, v => by
    intro _
    simp [mapInsert]
  | (k', v') :: tl, k, v => by
    intro h
    rw [List.pairwise_cons] at h
    obtain ⟨h1, h2⟩ := h
    unfold mapInsert
    by_cases hlt : keyLt k k' = true
    · rw [if_pos hlt]
      refine List.Pairwise.cons ?_ (List.Pairwise.cons h1 h2)
      intro b hb
      rcases List.mem_cons.mp hb with hb' | hb'
      · rw [hb']
        exact hlt
      · exact keyLt_trans k k' b.1 hlt (h1 b hb')
    · rw [if_neg hlt]
      by_cases hgt : keyLt k' k = true
      · rw [if_pos hgt]
        refine List.Pairwise.cons ?_ (pairwise_keyLt_mapInsert tl k v h2)
        intro b hb
        rcases mem_map_fst_mapInsert tl k v b.1 (List.mem_map_of_mem Prod.fst hb) with hk | hk
        · rw [hk]
          exact hgt
        · obtain ⟨c, hc, hc2⟩ := List.mem_map.mp hk
          have hx := h1 c hc
          rw [hc2] at hx
          exact hx
      · rw [if_neg hgt]
        exact List.Pairwise.cons h1 h2

/-- A sequence of `operator[]` insertions starting from the empty map,
as the repository's code builds every object. -/
def insertAll (entries : List (String × JsonValue)) : List (String × JsonValue) :=
  entries.foldl (fun m kv => mapInsert m kv.1 kv.2) []

/-- C8 counterexample: inserting key "b" and then key "a" into an object
and serializing emits "a" before "b": the keys are NOT emitted in
insertion order, and the serialization differs from the insertion-order
document. -/
theorem serialize_insertion_order_cx :
    insertAll [("b", JsonValue.bool true), ("a", JsonValue.bool false)] =
      [("a", JsonValue.bool false), ("b", JsonValue.bool true)] ∧
    serialize (JsonValue.obj (insertAll [("b", JsonValue.bool true), ("a", JsonValue.bool false)])) =
      "\x7b\"a\":false,\"b\":true\x7d" ∧
    serialize (JsonValue.obj (insertAll [("b", JsonValue.bool true), ("a", JsonValue.bool false)])) ≠
      "\x7b\"b\":true,\"a\":false\x7d" :=
  ⟨rfl, rfl, by decide⟩

/-- C8 amended: for an object built by any sequence of insertions, the
underlying `std::map` holds the keys in strictly increasing lexicographic
order (so keys are unique), and `serialize` emits the entries in exactly
that map order — not in insertion order. -/
theorem serialize_object_keys_sorted (entries : List (String × JsonValue)) :
    (insertAll entries).Pairwise (fun a b => keyLt a.1 b.1 = true) ∧
    serialize (JsonValue.obj (insertAll entries)) =
      String.singleton lbrace ++ serializeFields (insertAll entries) ++ String.singleton rbrace := by
  constructor
  · have hgen : ∀ (es acc : List (String × JsonValue)),
        acc.Pairwise (fun a b => keyLt a.1 b.1 = true) →
        (es.foldl (fun m kv => mapInsert m kv.1 kv.2) acc).Pairwise
          (fun a b => keyLt a.1 b.1 = true) := by
      intro es
      induction es with
      | nil => intro acc h; exact h
      | cons e es ih => intro acc h; exact ih _ (pairwise_keyLt_mapInsert acc e.1 e.2 h)
    exact hgen entries [] List.Pairwise.nil
  · rfl
